import Mathlib

/-!
Verification of the oda-wd-client mapping layer.

This file shallowly embeds the data model and the mapping functions of the
`oda_wd_client` package (base/types.py, service/financial_management,
service/resource_management, service/human_resources) and proves properties
about them.  Wire structures (suds data dicts) are modelled as Lean
structures, Python `None` as `Option`, raised exceptions as `Except`, and
Python truthiness on optional strings is modelled explicitly.
-/

namespace OdaWd

/-- One entry of a wire ID list, i.e. one element of the `"ID"` list inside a
`<Field>_Reference` wire dict: `{"_type": ..., "value": ..., "_parent_id"?: ...,
"_parent_type"?: ...}`.  The same shape is used for the suds ID objects built
by `wd_object` (`id_obj.value`, `id_obj._type`, `id_obj._parent_id`,
`id_obj._parent_type`). -/
structure WireID where
  type : String
  value : Option String
  parentId : Option String := none
  parentType : Option String := none
deriving Repr, DecidableEq

/-- Python truthiness of an optional string: `None` and `""` are falsy, any
non-empty string is truthy. -/
def truthyStr (s : Option String) : Bool :=
  match s with
  | none => false
  | some v => v ≠ ""

/-- Modelled from the spec: `get_id_from_list` is defined in
`oda_wd_client/base/utils.py`, which is not among the provided sources.  Per
the spec (section 4.1), it scans a list of `{type, value}` pairs for one whose
type matches the requested id-type and returns its value, or the signal value
"absent" (None) when no entry matches; it never raises. -/
def get_id_from_list (id_list : List WireID) (id_type : String) : Option String :=
  match id_list.find? (fun entry => entry.type == id_type) with
  | some entry => entry.value
  | none => none

/-- `WorkdayReferenceBaseModel` from `base/types.py`.  All four fields are
plain pydantic fields; `workday_parent_id` and `workday_parent_type` default
to `None` and no validator ties them together. -/
structure WorkdayReferenceBaseModel where
  workday_id : Option String
  workday_id_type : String
  workday_parent_id : Option String := none
  workday_parent_type : Option String := none
deriving Repr, DecidableEq

/-- A suds reference object as built by `wd_object`: the class name used for
the factory call and the `ID` list holding a single ID object. -/
structure SudsRefObject where
  className : String
  ID : List WireID
deriving Repr, DecidableEq

/-- The single ID object appended by `WorkdayReferenceBaseModel.wd_object`:
`value` and `_type` always set from the model; `_parent_id` and `_parent_type`
only set when `self.workday_parent_id` is truthy. -/
def wd_id_obj (e : WorkdayReferenceBaseModel) : WireID :=
  if truthyStr e.workday_parent_id then
    { type := e.workday_id_type, value := e.workday_id,
      parentId := e.workday_parent_id, parentType := e.workday_parent_type }
  else
    { type := e.workday_id_type, value := e.workday_id }

/-- `WorkdayReferenceBaseModel.wd_object`.  `class_name = class_name or
self._class_name` uses Python truthiness (empty strings are falsy), and the
`assert class_name` failure is modelled as an error result.  The transport
factory calls only tag the object with its wire type name, modelled by the
`className` field. -/
def wd_object (e : WorkdayReferenceBaseModel) (class_name : Option String)
    (cls_default_class_name : Option String) : Except String SudsRefObject :=
  let cn := if truthyStr class_name then class_name else cls_default_class_name
  if truthyStr cn then
    .ok { className := cn.getD "", ID := [wd_id_obj e] }
  else
    .error "WD Class name must be supplied on class or call to wd_object"

/-- `wd_object` at a call site where the model class fixes a non-empty
`_class_name` literal (e.g. `SpendCategory.wd_object(client)` with
`_class_name = "Spend_CategoryObject"`): the class-name assert always passes,
so the construction is total. -/
def wd_object_cls (e : WorkdayReferenceBaseModel) (cls_name : String) : SudsRefObject :=
  { className := cls_name, ID := [wd_id_obj e] }

/-- `WorkdayReferenceBaseModel.from_id_list`: look up the class's
`workday_id_type` default in the ID list and instantiate the model when the
found value is truthy, otherwise return `None`.  For the concrete reference
models `workday_id_type` is a `Literal` whose default is the literal itself,
passed here as `workday_id_type_default`. -/
def from_id_list (workday_id_type_default : String) (id_list : List WireID) :
    Option WorkdayReferenceBaseModel :=
  let workday_id := get_id_from_list id_list workday_id_type_default
  if truthyStr workday_id then
    some { workday_id := workday_id, workday_id_type := workday_id_type_default }
  else
    none

/-- C1 counterexample input: a reference entity whose `workday_id` is set, but
set to the empty string (pydantic accepts this: the field is `str | None` with
no non-empty constraint). -/
def c1_bad : WorkdayReferenceBaseModel :=
  { workday_id := some "", workday_id_type := "Cost_Center_Reference_ID" }

/-- C1 witness input: a reference entity with a non-empty `workday_id`. -/
def c1_good : WorkdayReferenceBaseModel :=
  { workday_id := some "1234", workday_id_type := "Supplier_ID" }

end OdaWd

namespace OdaWd

/-- C1 (counterexample): the claim fails as stated.  `c1_bad` has its
`workday_id` set (to the empty string), `wd_object` produces an ID list that
does contain an entry of the entity's id-type, yet `from_id_list` returns
`none` instead of an entity with the same identifying fields, because
`from_id_list` tests the looked-up value with Python truthiness and `""` is
falsy. -/
theorem C1_counterexample :
    c1_bad.workday_id.isSome = true ∧
    wd_object c1_bad none (some "Accounting_WorktagObject") =
      .ok { className := "Accounting_WorktagObject",
            ID := [{ type := "Cost_Center_Reference_ID", value := some "" }] } ∧
    from_id_list c1_bad.workday_id_type
      [{ type := "Cost_Center_Reference_ID", value := some "" }] = none := by
  refine ⟨rfl, rfl, rfl⟩

/-- C1 (amended): for every reference entity whose `workday_id` is set to a
non-empty string, building the wire object with `wd_object` and looking its ID
list up with `from_id_list` using the entity's id-type yields an entity whose
identifying fields (`workday_id`, `workday_id_type`) equal those of the
original. -/
theorem C1_roundtrip (e : WorkdayReferenceBaseModel) (s : String)
    (hid : e.workday_id = some s) (hne : s ≠ "")
    (cn dcn : Option String) (ro : SudsRefObject)
    (hok : wd_object e cn dcn = .ok ro) :
    ∃ r, from_id_list e.workday_id_type ro.ID = some r ∧
      r.workday_id = e.workday_id ∧ r.workday_id_type = e.workday_id_type := by
  have hID : ro.ID = [wd_id_obj e] := by
    simp only [wd_object] at hok
    by_cases h1 : truthyStr (if truthyStr cn = true then cn else dcn) = true
    · simp only [if_pos h1] at hok
      cases hok
      rfl
    · simp only [if_neg h1] at hok
      exact Except.noConfusion hok
  have htype : (wd_id_obj e).type = e.workday_id_type := by
    unfold wd_id_obj
    split <;> rfl
  have hval : (wd_id_obj e).value = e.workday_id := by
    unfold wd_id_obj
    split <;> rfl
  refine ⟨⟨e.workday_id, e.workday_id_type, none, none⟩, ?_, rfl, rfl⟩
  rw [hID]
  have hfind : List.find? (fun entry => entry.type == e.workday_id_type)
      [wd_id_obj e] = some (wd_id_obj e) := by
    simp [List.find?, htype]
  unfold from_id_list get_id_from_list
  rw [hfind]
  simp [hval, hid, truthyStr, hne]

/-- C1 witness: the amended round-trip theorem applied at `c1_good`. -/
theorem C1_roundtrip_witness :
    ∃ r, from_id_list "Supplier_ID"
        (SudsRefObject.mk "SupplierObject"
          [{ type := "Supplier_ID", value := some "1234" }]).ID = some r ∧
      r.workday_id = some "1234" ∧ r.workday_id_type = "Supplier_ID" :=
  C1_roundtrip c1_good "1234" rfl (by decide) none (some "SupplierObject")
    (SudsRefObject.mk "SupplierObject"
      [{ type := "Supplier_ID", value := some "1234" }]) rfl

/-- C2: for every wire ID list that contains no entry whose type matches the
target id-type, `from_id_list` returns `none` (the "absent" signal value); the
embedding is a total function, so no error is raised. -/
theorem C2_lookup_absent (id_list : List WireID) (id_type : String)
    (h : ∀ i ∈ id_list, i.type ≠ id_type) :
    from_id_list id_type id_list = none := by
  have hf : id_list.find? (fun entry => entry.type == id_type) = none :=
    List.find?_eq_none.mpr (fun i hi => by simpa using h i hi)
  simp [from_id_list, get_id_from_list, hf, truthyStr]

/-- C2 witness: a concrete ID list carrying only other id-types. -/
theorem C2_lookup_absent_witness :
    from_id_list "Spend_Category_ID"
      [{ type := "Cost_Center_Reference_ID", value := some "CC1" },
       { type := "WID", value := some "abc123" }] = none :=
  C2_lookup_absent _ _ (by decide)

/-- Errors raised by the mapping functions: failed `assert` statements,
missing dict keys, out-of-range list indexing, and `ValueError` from enum
coercion. -/
inductive WdError where
  | assertionError (msg : String)
  | keyError (key : String)
  | indexError (key : String)
  | valueError (msg : String)
deriving Repr, DecidableEq

/-- `ConversionRate.RateTypeID` from `financial_management/types.py`. -/
inductive RateTypeID where
  | current
  | merit
  | budget
  | average
deriving Repr, DecidableEq

/-- The `ConversionRate.RateTypeID(value)` enum coercion: Python raises
`ValueError` for a string that is not one of the enum values, modelled as
`none`. -/
def RateTypeID.fromString : String → Option RateTypeID
  | "Current" => some .current
  | "Merit" => some .merit
  | "Budget" => some .budget
  | "Average" => some .average
  | _ => none

/-- `ConversionRate` from `financial_management/types.py`.  The float rate is
carried as an integer scalar and the timestamp as a string; both pass through
the mapper unchanged. -/
structure ConversionRate where
  workday_id : Option String
  from_currency_iso : String
  to_currency_iso : String
  rate : Int
  rate_type_id : RateTypeID
  effective_timestamp : String
deriving Repr, DecidableEq

/-- One entry of the wire `Currency_Conversion_Rate_Data` list.  Each
`<X>_Reference` field holds the `"ID"` list of the reference dict; `none`
models the dict key being absent (direct key access then raises `KeyError`).
-/
structure WireConversionRateData where
  From_Currency_Reference : Option (List WireID)
  Target_Currency_Reference : Option (List WireID)
  Currency_Rate_Type_Reference : Option (List WireID)
  Currency_Rate : Int
  Effective_Timestamp : String
deriving Repr, DecidableEq

/-- The wire dict passed to `workday_conversion_rate_to_pydantic`. -/
structure WireConversionRate where
  Currency_Conversion_Rate_Reference : List WireID
  Currency_Conversion_Rate_Data : List WireConversionRateData
deriving Repr, DecidableEq

/-- `workday_conversion_rate_to_pydantic` from
`financial_management/utils.py`: look up the WID, assert exactly one
`Currency_Conversion_Rate_Data` entry, look up the from/target currency and
rate-type references, assert all of them truthy, then build the
`ConversionRate` (coercing the rate-type id through the enum, which raises
`ValueError` on unknown values). -/
def workday_conversion_rate_to_pydantic (data : WireConversionRate) :
    Except WdError ConversionRate :=
  let workday_id := get_id_from_list data.Currency_Conversion_Rate_Reference "WID"
  match data.Currency_Conversion_Rate_Data with
  | [sub_data] =>
    match sub_data.From_Currency_Reference with
    | none => .error (.keyError "From_Currency_Reference")
    | some from_list =>
      let from_ref := get_id_from_list from_list "Currency_ID"
      match sub_data.Target_Currency_Reference with
      | none => .error (.keyError "Target_Currency_Reference")
      | some target_list =>
        let target_ref := get_id_from_list target_list "Currency_ID"
        match sub_data.Currency_Rate_Type_Reference with
        | none => .error (.keyError "Currency_Rate_Type_Reference")
        | some type_list =>
          let type_id := get_id_from_list type_list "Currency_Rate_Type_ID"
          if truthyStr workday_id then
            if truthyStr from_ref then
              if truthyStr target_ref then
                if truthyStr type_id then
                  match RateTypeID.fromString (type_id.getD "") with
                  | some rt =>
                    .ok { workday_id := workday_id,
                          from_currency_iso := from_ref.getD "",
                          to_currency_iso := target_ref.getD "",
                          rate := sub_data.Currency_Rate,
                          rate_type_id := rt,
                          effective_timestamp := sub_data.Effective_Timestamp }
                  | none => .error (.valueError "is not a valid ConversionRate.RateTypeID")
                else
                  .error (.assertionError "All currency conversion rates need a rate type-reference")
              else
                .error (.assertionError "All currency conversion rates need a target currency-reference")
            else
              .error (.assertionError "All currency conversion rates need a from currency-reference")
          else
            .error (.assertionError "All currency conversion rates need a Workday ID")
  | _ =>
    .error (.assertionError "Code is written expecting that we only have one currency rate data per object, but that is not the case here")

/-- C3 counterexample input: exactly one data entry, all required references
present and truthy, but the rate-type id is not one of the `RateTypeID` enum
values. -/
def c3_bad : WireConversionRate :=
  { Currency_Conversion_Rate_Reference := [{ type := "WID", value := some "w1" }],
    Currency_Conversion_Rate_Data :=
      [{ From_Currency_Reference := some [{ type := "Currency_ID", value := some "NOK" }],
         Target_Currency_Reference := some [{ type := "Currency_ID", value := some "USD" }],
         Currency_Rate_Type_Reference :=
           some [{ type := "Currency_Rate_Type_ID", value := some "Bogus_Rate" }],
         Currency_Rate := 10,
         Effective_Timestamp := "2023-01-01T00:00:00" }] }

/-- C3 witness input: one data entry with the rate-type reference key absent.
-/
def c3_missing : WireConversionRate :=
  { Currency_Conversion_Rate_Reference := [{ type := "WID", value := some "w1" }],
    Currency_Conversion_Rate_Data :=
      [{ From_Currency_Reference := some [{ type := "Currency_ID", value := some "NOK" }],
         Target_Currency_Reference := some [{ type := "Currency_ID", value := some "USD" }],
         Currency_Rate_Type_Reference := none,
         Currency_Rate := 10,
         Effective_Timestamp := "2023-01-01T00:00:00" }] }

/-- C3 witness input: one fully-populated data entry with a known rate type.
-/
def c3_ok : WireConversionRate :=
  { Currency_Conversion_Rate_Reference := [{ type := "WID", value := some "w1" }],
    Currency_Conversion_Rate_Data :=
      [{ From_Currency_Reference := some [{ type := "Currency_ID", value := some "NOK" }],
         Target_Currency_Reference := some [{ type := "Currency_ID", value := some "USD" }],
         Currency_Rate_Type_Reference :=
           some [{ type := "Currency_Rate_Type_ID", value := some "Current" }],
         Currency_Rate := 10,
         Effective_Timestamp := "2023-01-01T00:00:00" }] }

/-- C3 witness input: two data entries. -/
def c3_two : WireConversionRate :=
  { Currency_Conversion_Rate_Reference := [{ type := "WID", value := some "w1" }],
    Currency_Conversion_Rate_Data :=
      [{ From_Currency_Reference := some [{ type := "Currency_ID", value := some "NOK" }],
         Target_Currency_Reference := some [{ type := "Currency_ID", value := some "USD" }],
         Currency_Rate_Type_Reference :=
           some [{ type := "Currency_Rate_Type_ID", value := some "Current" }],
         Currency_Rate := 10,
         Effective_Timestamp := "2023-01-01T00:00:00" },
       { From_Currency_Reference := some [{ type := "Currency_ID", value := some "NOK" }],
         Target_Currency_Reference := some [{ type := "Currency_ID", value := some "SEK" }],
         Currency_Rate_Type_Reference :=
           some [{ type := "Currency_Rate_Type_ID", value := some "Current" }],
         Currency_Rate := 11,
         Effective_Timestamp := "2023-01-01T00:00:00" }] }

/-- C3 (counterexample to the claim as stated): with exactly one data entry
and every required reference present, mapping still fails when the rate-type
id is not a known `RateTypeID` enum value: the enum coercion raises
`ValueError`. -/
theorem C3_counterexample :
    workday_conversion_rate_to_pydantic c3_bad =
      .error (.valueError "is not a valid ConversionRate.RateTypeID") := by
  rfl

/-- C3 (amended): conversion-rate mapping.  (1) With one data entry whose
from/target reference keys are present, a missing rate-type reference key
raises a `KeyError` naming it; (2) with the reference present but no truthy
rate-type id in it, the required-reference assertion fails; (3) with exactly
one data entry, all references present and truthy and a known rate-type id,
mapping succeeds; (4) two or more data entries fail the cardinality
assertion. -/
theorem C3_conversion_rate_mapping (data : WireConversionRate) :
    (∀ sub fl tl, data.Currency_Conversion_Rate_Data = [sub] →
        sub.From_Currency_Reference = some fl →
        sub.Target_Currency_Reference = some tl →
        sub.Currency_Rate_Type_Reference = none →
        workday_conversion_rate_to_pydantic data =
          .error (.keyError "Currency_Rate_Type_Reference")) ∧
    (∀ sub fl tl tyl, data.Currency_Conversion_Rate_Data = [sub] →
        sub.From_Currency_Reference = some fl →
        sub.Target_Currency_Reference = some tl →
        sub.Currency_Rate_Type_Reference = some tyl →
        truthyStr (get_id_from_list data.Currency_Conversion_Rate_Reference "WID") = true →
        truthyStr (get_id_from_list fl "Currency_ID") = true →
        truthyStr (get_id_from_list tl "Currency_ID") = true →
        truthyStr (get_id_from_list tyl "Currency_Rate_Type_ID") = false →
        workday_conversion_rate_to_pydantic data =
          .error (.assertionError "All currency conversion rates need a rate type-reference")) ∧
    (∀ sub fl tl tyl rt, data.Currency_Conversion_Rate_Data = [sub] →
        sub.From_Currency_Reference = some fl →
        sub.Target_Currency_Reference = some tl →
        sub.Currency_Rate_Type_Reference = some tyl →
        truthyStr (get_id_from_list data.Currency_Conversion_Rate_Reference "WID") = true →
        truthyStr (get_id_from_list fl "Currency_ID") = true →
        truthyStr (get_id_from_list tl "Currency_ID") = true →
        truthyStr (get_id_from_list tyl "Currency_Rate_Type_ID") = true →
        RateTypeID.fromString
          ((get_id_from_list tyl "Currency_Rate_Type_ID").getD "") = some rt →
        ∃ cr, workday_conversion_rate_to_pydantic data = .ok cr ∧
          cr.rate_type_id = rt) ∧
    (2 ≤ data.Currency_Conversion_Rate_Data.length →
        workday_conversion_rate_to_pydantic data =
          .error (.assertionError "Code is written expecting that we only have one currency rate data per object, but that is not the case here")) := by
  refine ⟨?_, ?_, ?_, ?_⟩
  · intro sub fl tl hd hf ht hty
    simp [workday_conversion_rate_to_pydantic, hd, hf, ht, hty]
  · intro sub fl tl tyl hd hf ht hty hw hfr htr htyr
    simp [workday_conversion_rate_to_pydantic, hd, hf, ht, hty, hw, hfr, htr, htyr]
  · intro sub fl tl tyl rt hd hf ht hty hw hfr htr htyr hrt
    refine ⟨{ workday_id := get_id_from_list data.Currency_Conversion_Rate_Reference "WID",
              from_currency_iso := (get_id_from_list fl "Currency_ID").getD "",
              to_currency_iso := (get_id_from_list tl "Currency_ID").getD "",
              rate := sub.Currency_Rate,
              rate_type_id := rt,
              effective_timestamp := sub.Effective_Timestamp }, ?_, rfl⟩
    simp [workday_conversion_rate_to_pydantic, hd, hf, ht, hty, hw, hfr, htr, htyr, hrt]
  · intro hlen
    rcases hcc : data.Currency_Conversion_Rate_Data with _ | ⟨a, _ | ⟨b, t⟩⟩
    · rw [hcc] at hlen
      simp at hlen
    · rw [hcc] at hlen
      simp at hlen
    · simp [workday_conversion_rate_to_pydantic, hcc]

/-- C3 witness: the amended theorem applied at concrete inputs for each of
its four parts. -/
theorem C3_conversion_rate_mapping_witness :
    (workday_conversion_rate_to_pydantic c3_missing =
      .error (.keyError "Currency_Rate_Type_Reference")) ∧
    (∃ cr, workday_conversion_rate_to_pydantic c3_ok = .ok cr ∧
      cr.rate_type_id = RateTypeID.current) ∧
    (workday_conversion_rate_to_pydantic c3_two =
      .error (.assertionError "Code is written expecting that we only have one currency rate data per object, but that is not the case here")) :=
  ⟨(C3_conversion_rate_mapping c3_missing).1 _ _ _ rfl rfl rfl rfl,
   (C3_conversion_rate_mapping c3_ok).2.2.1 _ _ _ _ RateTypeID.current
     rfl rfl rfl rfl (by decide) (by decide) (by decide) (by decide) (by decide),
   (C3_conversion_rate_mapping c3_two).2.2.2 (by decide)⟩

/-- `Currency` from `financial_management/types.py`: a reference model whose
`workday_id` is aliased `currency_code` and whose id-type is fixed to
`Currency_ID`. -/
structure Currency where
  workday_id : String
  description : Option String := none
  retired : Bool := false
deriving Repr, DecidableEq

/-- `Company` from `financial_management/types.py`: id-type fixed to
`Company_Reference_ID`. -/
structure Company where
  workday_id : String
  name : Option String := none
  currency : Option Currency := none
  country_code : Option String := none
deriving Repr, DecidableEq

/-- `Supplier` from `resource_management/types.py`: id-type fixed to
`Supplier_ID`; all descriptive fields are optional (pydantic v1 gives
`Optional` fields an implicit `None` default). -/
structure Supplier where
  workday_id : String
  reference_id : Option String := none
  name : Option String := none
  payment_terms : Option String := none
  address : Option String := none
  phone : Option String := none
  email : Option String := none
  url : Option String := none
  currency : Option String := none
  bank_account : Option String := none
  iban : Option String := none
  tax_id_no : Option String := none
  tax_id_au : Option String := none
  tax_id_be : Option String := none
  tax_id_ch : Option String := none
  tax_id_de : Option String := none
  tax_id_dk : Option String := none
  tax_id_es : Option String := none
  tax_id_fi : Option String := none
  tax_id_gb : Option String := none
  tax_id_ir : Option String := none
  tax_id_nl : Option String := none
  tax_id_pl : Option String := none
  tax_id_se : Option String := none
  tax_id_us : Option String := none
deriving Repr, DecidableEq

/-- `TaxRateOptionsData` from `resource_management/types.py`: three reference
entities (rate, recoverability, option). -/
structure TaxRateOptionsData where
  tax_rate : WorkdayReferenceBaseModel
  tax_recoverability : WorkdayReferenceBaseModel
  tax_option : WorkdayReferenceBaseModel
deriving Repr, DecidableEq

/-- `SupplierInvoiceLine` from `resource_management/types.py`.  Monetary
amounts are carried as integer scalars and the budget date as a string; they
pass through the mappers unchanged. -/
structure SupplierInvoiceLine where
  order : Option Int
  description : String := "-No description-"
  tax_rate_options_data : Option TaxRateOptionsData := none
  tax_applicability : Option WorkdayReferenceBaseModel := none
  tax_code : Option WorkdayReferenceBaseModel := none
  spend_category : Option WorkdayReferenceBaseModel := none
  cost_center : Option WorkdayReferenceBaseModel := none
  project : Option WorkdayReferenceBaseModel := none
  gross_amount : Int
  tax_amount : Option Int := none
  total_amount : Option Int := none
  budget_date : Option String := none
deriving Repr, DecidableEq

/-- `SupplierInvoice` from `resource_management/types.py` (id-type fixed to
`Supplier_invoice_Reference_ID`).  The `attachments` field is never set by the
wire-to-domain mapper and is not read by the line serializer, so it is left
out of the embedding. -/
structure SupplierInvoice where
  workday_id : Option String
  invoice_number : String
  company : Company
  currency : Currency
  supplier : Supplier
  invoice_date : String
  due_date : String
  total_amount : Int
  tax_amount : Int
  tax_option : Option WorkdayReferenceBaseModel := none
  lines : List SupplierInvoiceLine
deriving Repr, DecidableEq

/-- One entry of the wire `Invoice_Line_Replacement_Data` list, holding the
fields read by `_workday_invoice_line_to_pydantic`.  The three
`Tax_*_1_Reference` keys may be absent (the mapper catches the `KeyError`);
the other reference keys are accessed directly. -/
structure WireInvoiceLine where
  Line_Order : Int
  Item_Description : Option String := none
  Extended_Amount : Int
  Worktags_Reference : List (List WireID) := []
  Tax_Option_1_Reference : Option (List WireID) := none
  Tax_Rate_1_Reference : Option (List WireID) := none
  Tax_Recoverability_1_Reference : Option (List WireID) := none
  Tax_Applicability_Reference : List WireID := []
  Tax_Code_Reference : List WireID := []
  Spend_Category_Reference : List WireID := []
deriving Repr, DecidableEq

/-- `_workday_invoice_line_to_pydantic` from `resource_management/utils.py`:
keep the last matching cost-center worktag, build the tax-rate options when
all three tax references are present and resolvable (any `KeyError` or failed
assert leaves them `None`), and construct the line with the supplied
zero-based order. -/
def _workday_invoice_line_to_pydantic (data : WireInvoiceLine) (order : Int) :
    SupplierInvoiceLine :=
  let cost_center := data.Worktags_Reference.foldl
    (fun acc tag =>
      match from_id_list "Cost_Center_Reference_ID" tag with
      | some cc => some cc
      | none => acc)
    none
  let tax_rate_options_data :=
    match data.Tax_Option_1_Reference, data.Tax_Rate_1_Reference,
          data.Tax_Recoverability_1_Reference with
    | some op_list, some rate_list, some rec_list =>
      match from_id_list "Tax_Option_ID" op_list,
            from_id_list "Tax_Rate_ID" rate_list,
            from_id_list "Tax_Recoverability_Object_ID" rec_list with
      | some op, some rate, some rec =>
        some { tax_rate := rate, tax_recoverability := rec, tax_option := op }
      | _, _, _ => none
    | _, _, _ => none
  { order := some order,
    description := data.Item_Description.getD "",
    tax_rate_options_data := tax_rate_options_data,
    tax_applicability :=
      from_id_list "Tax_Applicability_ID" data.Tax_Applicability_Reference,
    tax_code := from_id_list "Tax_Code_ID" data.Tax_Code_Reference,
    spend_category :=
      from_id_list "Spend_Category_ID" data.Spend_Category_Reference,
    cost_center := cost_center,
    gross_amount := data.Extended_Amount }

/-- The singular entry of the wire `Supplier_Invoice_Data` list, with the
fields read by `workday_supplier_invoice_to_pydantic`. -/
structure WireInvoiceData where
  Invoice_Line_Replacement_Data : List WireInvoiceLine
  Company_Reference : List WireID
  Currency_Reference : List WireID
  Supplier_Reference : List WireID
  Invoice_Number : String
  Invoice_Date : String
  Due_Date_Override : String
  Control_Amount_Total : Int
  Tax_Amount : Int
deriving Repr, DecidableEq

/-- The wire dict passed to `workday_supplier_invoice_to_pydantic`. -/
structure WireSupplierInvoice where
  Supplier_Invoice_Reference : List WireID
  Supplier_Invoice_Data : List WireInvoiceData
deriving Repr, DecidableEq

/-- `workday_supplier_invoice_to_pydantic` from
`resource_management/utils.py`: assert exactly one invoice in the dataset,
sort the line entries ascending by `Line_Order` (Python `sorted` is stable,
modelled by `mergeSort`), map each to a domain line with its zero-based
enumeration index, resolve the company/currency/supplier references (asserted
to be non-`None`), and build the `SupplierInvoice`. -/
def workday_supplier_invoice_to_pydantic (data : WireSupplierInvoice) :
    Except WdError SupplierInvoice :=
  match data.Supplier_Invoice_Data with
  | [inv] =>
    let lines :=
      ((inv.Invoice_Line_Replacement_Data.mergeSort
          (fun a b => decide (a.Line_Order ≤ b.Line_Order))).enum).map
        (fun p => _workday_invoice_line_to_pydantic p.2 (Int.ofNat p.1))
    match get_id_from_list inv.Company_Reference "Company_Reference_ID",
          get_id_from_list inv.Currency_Reference "Currency_ID",
          get_id_from_list inv.Supplier_Reference "Supplier_ID" with
    | some company_ref, some currency_ref, some supplier_ref =>
      .ok { workday_id := get_id_from_list data.Supplier_Invoice_Reference
              "Supplier_Invoice_Reference_ID",
            invoice_number := inv.Invoice_Number,
            company := { workday_id := company_ref },
            currency := { workday_id := currency_ref },
            supplier := { workday_id := supplier_ref },
            invoice_date := inv.Invoice_Date,
            due_date := inv.Due_Date_Override,
            total_amount := inv.Control_Amount_Total,
            tax_amount := inv.Tax_Amount,
            lines := lines }
    | _, _, _ => .error (.assertionError "reference type narrowing failed")
  | _ => .error (.assertionError "Expecting only one invoice in this dataset")

/-- A suds `Tax_Rate_Options_DataType` object as populated by
`_get_wd_invoice_lines_from_invoice`. -/
structure WdTaxRateOptionsData where
  Tax_Rate_1_Reference : SudsRefObject
  Tax_Recoverability_1_Reference : SudsRefObject
  Tax_Option_1_Reference : SudsRefObject
deriving Repr, DecidableEq

/-- A suds `Supplier_Invoice_Line_Replacement_DataType` object as populated by
`_get_wd_invoice_lines_from_invoice`: optional members stay unset (`none`)
when the corresponding domain field is `None`. -/
structure WdInvoiceLineData where
  Line_Order : Option Int
  Item_Description : String
  Extended_Amount : Int
  Spend_Category_Reference : Option SudsRefObject := none
  Tax_Rate_Options_Data : Option WdTaxRateOptionsData := none
  Tax_Applicability_Reference : Option SudsRefObject := none
  Tax_Code_Reference : Option SudsRefObject := none
  Worktags_Reference : List SudsRefObject := []
deriving Repr, DecidableEq

/-- `_get_wd_invoice_lines_from_invoice` from `resource_management/utils.py`:
serialize each domain line into a wire line, copying `line.order` into
`Line_Order` unchanged; the referenced entities are serialized through
`wd_object` with their class-level `_class_name` literals. -/
def _get_wd_invoice_lines_from_invoice (lines : List SupplierInvoiceLine) :
    List WdInvoiceLineData :=
  lines.map (fun line =>
    { Line_Order := line.order,
      Item_Description := line.description,
      Extended_Amount := line.gross_amount,
      Spend_Category_Reference :=
        line.spend_category.map (wd_object_cls · "Spend_CategoryObject"),
      Tax_Rate_Options_Data := line.tax_rate_options_data.map (fun t =>
        { Tax_Rate_1_Reference := wd_object_cls t.tax_rate "Tax_RateObject",
          Tax_Recoverability_1_Reference :=
            wd_object_cls t.tax_recoverability "Tax_RecoverabilityObject",
          Tax_Option_1_Reference := wd_object_cls t.tax_option "Tax_OptionObject" }),
      Tax_Applicability_Reference :=
        line.tax_applicability.map (wd_object_cls · "Tax_ApplicabilityObject"),
      Tax_Code_Reference := line.tax_code.map (wd_object_cls · "Tax_CodeObject"),
      Worktags_Reference :=
        match line.cost_center with
        | some cc => [wd_object_cls cc "Accounting_WorktagObject"]
        | none => [] })

/-- C4: for a wire payload with a single invoice whose references resolve, the
wire-to-domain mapper produces the line list as some permutation of the wire
lines that is sorted ascending by `Line_Order`, each mapped with its
re-indexed consecutive zero-based order, so the exposed `order` fields are
`0, 1, ..., n-1`; and the domain-to-wire serializer emits each line's
`Line_Order` as exactly the `order` value held on the domain record. -/
theorem C4_invoice_line_order (data : WireSupplierInvoice) (inv : WireInvoiceData)
    (plines : List SupplierInvoiceLine)
    (hd : data.Supplier_Invoice_Data = [inv])
    (c cu s : String)
    (hc : get_id_from_list inv.Company_Reference "Company_Reference_ID" = some c)
    (hcu : get_id_from_list inv.Currency_Reference "Currency_ID" = some cu)
    (hs : get_id_from_list inv.Supplier_Reference "Supplier_ID" = some s) :
    (∃ (si : SupplierInvoice) (sorted_lines : List WireInvoiceLine),
       workday_supplier_invoice_to_pydantic data = .ok si ∧
       sorted_lines.Perm inv.Invoice_Line_Replacement_Data ∧
       sorted_lines.Pairwise (fun a b => a.Line_Order ≤ b.Line_Order) ∧
       si.lines = (sorted_lines.enum).map
         (fun p => _workday_invoice_line_to_pydantic p.2 (Int.ofNat p.1)) ∧
       si.lines.map (fun l => l.order) =
         (List.range inv.Invoice_Line_Replacement_Data.length).map
           (fun i => some (Int.ofNat i))) ∧
    ((_get_wd_invoice_lines_from_invoice plines).map (fun l => l.Line_Order) =
       plines.map (fun l => l.order)) := by
  constructor
  · refine ⟨{ workday_id := get_id_from_list data.Supplier_Invoice_Reference
                "Supplier_Invoice_Reference_ID",
              invoice_number := inv.Invoice_Number,
              company := { workday_id := c },
              currency := { workday_id := cu },
              supplier := { workday_id := s },
              invoice_date := inv.Invoice_Date,
              due_date := inv.Due_Date_Override,
              total_amount := inv.Control_Amount_Total,
              tax_amount := inv.Tax_Amount,
              lines := ((inv.Invoice_Line_Replacement_Data.mergeSort
                  (fun a b => decide (a.Line_Order ≤ b.Line_Order))).enum).map
                (fun p => _workday_invoice_line_to_pydantic p.2 (Int.ofNat p.1)) },
            inv.Invoice_Line_Replacement_Data.mergeSort
              (fun a b => decide (a.Line_Order ≤ b.Line_Order)),
            ?_, List.mergeSort_perm _ _, ?_, rfl, ?_⟩
    · simp [workday_supplier_invoice_to_pydantic, hd, hc, hcu, hs]
    · have h := @List.sorted_mergeSort WireInvoiceLine
        (fun a b => decide (a.Line_Order ≤ b.Line_Order))
        (fun a b c h1 h2 => by
          simp only [decide_eq_true_eq] at h1 h2 ⊢
          exact le_trans h1 h2)
        (fun a b => by
          simpa using Int.le_total a.Line_Order b.Line_Order)
        inv.Invoice_Line_Replacement_Data
      exact h.imp (fun hab => by simpa using hab)
    · have hmm : ∀ (l : List WireInvoiceLine),
          ((l.enum).map
            (fun p => _workday_invoice_line_to_pydantic p.2 (Int.ofNat p.1))).map
              (fun l => l.order) =
          (List.range l.length).map (fun i => some (Int.ofNat i)) := by
        intro l
        rw [List.map_map, ← List.enum_map_fst l, List.map_map]
        rfl
      rw [hmm]
      have hlen := (List.mergeSort_perm inv.Invoice_Line_Replacement_Data
        (fun a b => decide (a.Line_Order ≤ b.Line_Order))).length_eq
      rw [hlen]
  · simp only [_get_wd_invoice_lines_from_invoice, List.map_map]
    rfl

/-- C4 witness input: a wire invoice line with a given order and amount. -/
def c4_line (o amt : Int) : WireInvoiceLine :=
  { Line_Order := o, Extended_Amount := amt }

/-- C4 witness input: a single wire invoice whose lines carry the explicit
order values 2, 0, 1. -/
def c4_inv : WireInvoiceData :=
  { Invoice_Line_Replacement_Data := [c4_line 2 200, c4_line 0 100, c4_line 1 150],
    Company_Reference := [{ type := "Company_Reference_ID", value := some "CO1" }],
    Currency_Reference := [{ type := "Currency_ID", value := some "NOK" }],
    Supplier_Reference := [{ type := "Supplier_ID", value := some "SUP1" }],
    Invoice_Number := "INV-1",
    Invoice_Date := "2023-01-01",
    Due_Date_Override := "2023-02-01",
    Control_Amount_Total := 450,
    Tax_Amount := 0 }

/-- C4 witness input: the wire payload wrapping `c4_inv`. -/
def c4_data : WireSupplierInvoice :=
  { Supplier_Invoice_Reference :=
      [{ type := "Supplier_Invoice_Reference_ID", value := some "SI1" }],
    Supplier_Invoice_Data := [c4_inv] }

/-- C4 witness input: domain lines holding the original order values 2, 0, 1.
-/
def c4_plines : List SupplierInvoiceLine :=
  [{ order := some 2, gross_amount := 200 },
   { order := some 0, gross_amount := 100 },
   { order := some 1, gross_amount := 150 }]

/-- C4 witness: the theorem applied at the concrete payload with line orders
`[2, 0, 1]`. -/
theorem C4_invoice_line_order_witness :
    (∃ (si : SupplierInvoice) (sorted_lines : List WireInvoiceLine),
       workday_supplier_invoice_to_pydantic c4_data = .ok si ∧
       sorted_lines.Perm c4_inv.Invoice_Line_Replacement_Data ∧
       sorted_lines.Pairwise (fun a b => a.Line_Order ≤ b.Line_Order) ∧
       si.lines = (sorted_lines.enum).map
         (fun p => _workday_invoice_line_to_pydantic p.2 (Int.ofNat p.1)) ∧
       si.lines.map (fun l => l.order) =
         (List.range c4_inv.Invoice_Line_Replacement_Data.length).map
           (fun i => some (Int.ofNat i))) ∧
    ((_get_wd_invoice_lines_from_invoice c4_plines).map (fun l => l.Line_Order) =
       c4_plines.map (fun l => l.order)) :=
  C4_invoice_line_order c4_data c4_inv c4_plines rfl "CO1" "NOK" "SUP1" rfl rfl rfl

/-- Does `pat` occur as an initial segment of `s`? -/
def matchesAt : List Char → List Char → Bool
  | [], _ => true
  | _ :: _, [] => false
  | p :: ps, c :: cs => p == c && matchesAt ps cs

/-- Replace all non-overlapping occurrences of `pat`, scanning left to right —
the semantics of Python `str.replace` for a non-empty `pat`.  The fuel
argument (instantiated with the length of the text) makes the recursion
structural; every step consumes at least one character. -/
def replaceFuel (repl pat : List Char) : Nat → List Char → List Char
  | 0, s => s
  | _ + 1, [] => []
  | n + 1, c :: cs =>
    if matchesAt pat (c :: cs) then
      repl ++ replaceFuel repl pat n (List.drop (pat.length - 1) cs)
    else
      c :: replaceFuel repl pat n cs

/-- Python `some_string.replace(pat, repl)`: the source only calls this with
the non-empty pattern `"&#xa;"`. -/
def pyReplace (s pat repl : String) : String :=
  ⟨replaceFuel repl.data pat.data s.data.length s.data⟩

/-- One entry of the `Address_Data` wire list: its effective date (dates are
totally ordered; carried as an integer ordinal) and the pre-formatted address
string. -/
structure WireAddressEntry where
  Effective_Date : Int
  Formatted_Address : String
deriving Repr, DecidableEq

/-- One entry of the `Phone_Data` wire list. -/
structure WirePhoneEntry where
  E164_Formatted_Phone : String
deriving Repr, DecidableEq

/-- One entry of the `Email_Address_Data` wire list. -/
structure WireEmailEntry where
  Email_Address : String
deriving Repr, DecidableEq

/-- One entry of the `Web_Address_Data` wire list. -/
structure WireWebEntry where
  Web_Address : String
deriving Repr, DecidableEq

/-- The `Contact_Data` wire dict.  The mapper reads each key with
`data.get(key, None)` and tests it with Python truthiness, under which a
missing key and an empty list behave identically, so missing keys are
modelled by `[]`. -/
structure WireContactData where
  Address_Data : List WireAddressEntry := []
  Phone_Data : List WirePhoneEntry := []
  Email_Address_Data : List WireEmailEntry := []
  Web_Address_Data : List WireWebEntry := []
deriving Repr, DecidableEq

/-- The dict returned by `_get_contact_data_from_dict`; its keys feed the
`Supplier` model fields of the same names. -/
structure ContactData where
  address : Option String := none
  phone : Option String := none
  email : Option String := none
  url : Option String := none
deriving Repr, DecidableEq

/-- `_get_contact_data_from_dict` from `resource_management/utils.py`: take
the first element of the address entries sorted descending by effective date
(Python `sorted(..., reverse=True)` is stable, modelled by `mergeSort` with
the reversed comparison), convert the escaped newlines in its formatted
address to literal newlines, and take the first phone, email and web entries
when present. -/
def _get_contact_data_from_dict (data : WireContactData) : ContactData :=
  { address :=
      match data.Address_Data.mergeSort
          (fun a b => decide (b.Effective_Date ≤ a.Effective_Date)) with
      | [] => none
      | current :: _ => some (pyReplace current.Formatted_Address "&#xa;" "\n"),
    phone := data.Phone_Data.head?.map (fun p => p.E164_Formatted_Phone),
    email := data.Email_Address_Data.head?.map (fun e => e.Email_Address),
    url := data.Web_Address_Data.head?.map (fun w => w.Web_Address) }

/-- C5: when one address entry has a strictly later effective date than every
other entry, the contact mapper selects exactly that entry and converts every
embedded `"&#xa;"` escape in its formatted address into a literal newline. -/
theorem C5_latest_address (data : WireContactData) (a : WireAddressEntry)
    (ha : a ∈ data.Address_Data)
    (hmax : ∀ b ∈ data.Address_Data, b ≠ a → b.Effective_Date < a.Effective_Date) :
    (_get_contact_data_from_dict data).address =
      some (pyReplace a.Formatted_Address "&#xa;" "\n") := by
  have hperm := List.mergeSort_perm data.Address_Data
      (fun a b => decide (b.Effective_Date ≤ a.Effective_Date))
  have hsorted := @List.sorted_mergeSort WireAddressEntry
      (fun a b => decide (b.Effective_Date ≤ a.Effective_Date))
      (fun x y z h1 h2 => by
        simp only [decide_eq_true_eq] at h1 h2 ⊢
        exact le_trans h2 h1)
      (fun x y => by simpa using Int.le_total y.Effective_Date x.Effective_Date)
      data.Address_Data
  rcases hsl : data.Address_Data.mergeSort
      (fun a b => decide (b.Effective_Date ≤ a.Effective_Date)) with _ | ⟨hd, tl⟩
  · rw [hsl] at hperm
    rw [hperm.symm.eq_nil] at ha
    cases ha
  · rw [hsl] at hperm hsorted
    have hd_mem : hd ∈ data.Address_Data := hperm.mem_iff.mp (by simp)
    have ha_sl : a ∈ hd :: tl := hperm.mem_iff.mpr ha
    have hd_eq : hd = a := by
      rcases List.mem_cons.mp ha_sl with h1 | h1
      · exact h1.symm
      · by_contra hne
        have h2 : hd.Effective_Date < a.Effective_Date := hmax hd hd_mem hne
        have h3 : a.Effective_Date ≤ hd.Effective_Date := by
          have h4 := (List.pairwise_cons.mp hsorted).1 a h1
          simpa using h4
        exact absurd (lt_of_le_of_lt h3 h2) (lt_irrefl _)
    simp [_get_contact_data_from_dict, hsl, hd_eq]

/-- C5 witness input: two address entries with distinct effective dates; the
later one carries an escaped newline. -/
def c5_contact : WireContactData :=
  { Address_Data :=
      [{ Effective_Date := 10, Formatted_Address := "Old Street 2&#xa;0001 Oslo" },
       { Effective_Date := 20, Formatted_Address := "Main Street 1&#xa;0555 Oslo" }] }

/-- C5 witness: the theorem applied at `c5_contact` selects the entry dated
20 and converts the escape sequence to a newline. -/
theorem C5_latest_address_witness :
    (_get_contact_data_from_dict c5_contact).address =
      some "Main Street 1\n0555 Oslo" := by
  have h := C5_latest_address c5_contact
    { Effective_Date := 20, Formatted_Address := "Main Street 1&#xa;0555 Oslo" }
    (by decide) (by decide)
  rw [h]
  decide

/-- The `Organization_Data` wire dict inside `Company_Data`. -/
structure WireOrganizationData where
  ID : String
  Organization_Name : String
deriving Repr, DecidableEq

/-- The `Accounting_Data` wire dict inside `Company_Data`, holding the `"ID"`
list of its `Currency_Reference`. -/
structure WireAccountingData where
  Currency_Reference : List WireID
deriving Repr, DecidableEq

/-- One entry of the `Tax_Status_Data` wire list, holding the `"ID"` list of
its `Country_Reference`. -/
structure WireTaxStatusEntry where
  Country_Reference : List WireID
deriving Repr, DecidableEq

/-- One entry of the wire `Company_Data` list.  `Tax_Status_Data = none`
models the key being absent (the mapper tests key membership with `in`). -/
structure WireCompanyData where
  Organization_Data : WireOrganizationData
  Accounting_Data : WireAccountingData
  Tax_Status_Data : Option (List WireTaxStatusEntry) := none
deriving Repr, DecidableEq

/-- The wire dict passed to `workday_company_to_pydantic`. -/
structure WireCompany where
  Company_Data : List WireCompanyData
deriving Repr, DecidableEq

/-- `workday_company_to_pydantic` from `financial_management/utils.py`:
assert a singular `Company_Data`, resolve the currency reference, take the
country code from the first `Tax_Status_Data` entry when that key is present
(indexing an empty list would raise `IndexError`; an absent key yields
`country_code = None`), and build the `Company`. -/
def workday_company_to_pydantic (data : WireCompany) : Except WdError Company :=
  match data.Company_Data with
  | [cdata] =>
    let currency_code :=
      get_id_from_list cdata.Accounting_Data.Currency_Reference "Currency_ID"
    let build : Option String → Company := fun country_code =>
      { workday_id := cdata.Organization_Data.ID,
        name := some cdata.Organization_Data.Organization_Name,
        country_code := country_code,
        currency :=
          if truthyStr currency_code then
            some { workday_id := currency_code.getD "" }
          else none }
    match cdata.Tax_Status_Data with
    | some [] => .error (.indexError "Tax_Status_Data")
    | some (first :: _) =>
      .ok (build (get_id_from_list first.Country_Reference "ISO_3166-1_Alpha-2_Code"))
    | none => .ok (build none)
  | _ => .error (.assertionError "Company_Data for each company should be singular")

/-- C6: with a singular `Company_Data`, a `Tax_Status_Data` list of two or
more entries always yields the country code looked up in the first entry's
`Country_Reference`; an absent `Tax_Status_Data` key yields a `None` country
code. -/
theorem C6_company_country (data : WireCompany) (cdata : WireCompanyData)
    (hd : data.Company_Data = [cdata]) :
    (∀ e1 e2 rest, cdata.Tax_Status_Data = some (e1 :: e2 :: rest) →
       ∃ comp, workday_company_to_pydantic data = .ok comp ∧
         comp.country_code =
           get_id_from_list e1.Country_Reference "ISO_3166-1_Alpha-2_Code") ∧
    (cdata.Tax_Status_Data = none →
       ∃ comp, workday_company_to_pydantic data = .ok comp ∧
         comp.country_code = none) := by
  constructor
  · intro e1 e2 rest hts
    simp only [workday_company_to_pydantic, hd, hts]
    exact ⟨_, rfl, rfl⟩
  · intro hts
    simp only [workday_company_to_pydantic, hd, hts]
    exact ⟨_, rfl, rfl⟩

/-- C6 witness input: one company with two tax-status entries (NO first, SE
second). -/
def c6_two : WireCompany :=
  { Company_Data :=
      [{ Organization_Data := { ID := "CO1", Organization_Name := "Alpha AS" },
         Accounting_Data :=
           { Currency_Reference := [{ type := "Currency_ID", value := some "NOK" }] },
         Tax_Status_Data := some
           [{ Country_Reference :=
                [{ type := "ISO_3166-1_Alpha-2_Code", value := some "NO" }] },
            { Country_Reference :=
                [{ type := "ISO_3166-1_Alpha-2_Code", value := some "SE" }] }] }] }

/-- C6 witness input: the same company without the `Tax_Status_Data` key. -/
def c6_none : WireCompany :=
  { Company_Data :=
      [{ Organization_Data := { ID := "CO1", Organization_Name := "Alpha AS" },
         Accounting_Data :=
           { Currency_Reference := [{ type := "Currency_ID", value := some "NOK" }] },
         Tax_Status_Data := none }] }

/-- C6 witness: the theorem applied at the two concrete payloads. -/
theorem C6_company_country_witness :
    (∃ comp, workday_company_to_pydantic c6_two = .ok comp ∧
       comp.country_code = some "NO") ∧
    (∃ comp, workday_company_to_pydantic c6_none = .ok comp ∧
       comp.country_code = none) :=
  ⟨(C6_company_country c6_two _ rfl).1 _ _ [] rfl,
   (C6_company_country c6_none _ rfl).2 rfl⟩

/-- A suds `WebFault`: the transport-level SOAP fault with its fault code. -/
structure WebFault where
  faultcode : String
  faultstring : String := ""
deriving Repr, DecidableEq

/-- Outcomes of `_get_worker_by_id` other than success: the domain
`ValueError` raised for the known validation fault code, the propagated
transport fault, or the `IndexError` from an empty response worker list. -/
inductive WorkerLookupError where
  | valueError (msg : String)
  | webFault (f : WebFault)
  | indexError (msg : String)
deriving Repr, DecidableEq

/-- `HumanResources._get_worker_by_id` from `human_resources/api.py`, with
the transport call abstracted by its outcome `response` (the request
references built from the ID do not influence the control flow) and the
worker payload as an opaque type.  A `WebFault` with fault code
`SOAP-ENV:Client.validationError` is re-raised as
`ValueError(f'Invalid ID of type "{id_type}"')`; any other fault is
re-raised unchanged; on success the first worker of the response is
returned (the `workday_worker_to_pydantic` conversion lives in
`human_resources/utils.py`, outside the provided sources; the
`return_object=True` path returning the worker unchanged is modelled). -/
def _get_worker_by_id (α : Type) (id_type : String)
    (response : Except WebFault (List α)) : Except WorkerLookupError α :=
  match response with
  | .error e =>
    if e.faultcode = "SOAP-ENV:Client.validationError" then
      .error (.valueError ("Invalid ID of type \"" ++ id_type ++ "\""))
    else
      .error (.webFault e)
  | .ok workers =>
    match workers with
    | w :: _ => .ok w
    | [] => .error (.indexError "list index out of range")

/-- C7: a transport fault whose code is the known validation-fault code
surfaces as the domain `ValueError` naming the ID type; a fault with any
other code propagates unchanged. -/
theorem C7_worker_fault_translation (α : Type) (id_type : String) (e : WebFault) :
    (e.faultcode = "SOAP-ENV:Client.validationError" →
       _get_worker_by_id α id_type (.error e) =
         .error (.valueError ("Invalid ID of type \"" ++ id_type ++ "\""))) ∧
    (e.faultcode ≠ "SOAP-ENV:Client.validationError" →
       _get_worker_by_id α id_type (.error e) = .error (.webFault e)) := by
  constructor <;> intro h <;> simp [_get_worker_by_id, h]

/-- C7 witness: the theorem applied to a validation fault and to a server
fault, for the `Employee_ID` lookup. -/
theorem C7_worker_fault_translation_witness :
    (_get_worker_by_id Nat "Employee_ID"
        (.error { faultcode := "SOAP-ENV:Client.validationError" }) =
      .error (.valueError "Invalid ID of type \"Employee_ID\"")) ∧
    (_get_worker_by_id Nat "Employee_ID"
        (.error { faultcode := "SOAP-ENV:Server", faultstring := "boom" }) =
      .error (.webFault { faultcode := "SOAP-ENV:Server", faultstring := "boom" })) :=
  ⟨(C7_worker_fault_translation Nat "Employee_ID" _).1 rfl,
   (C7_worker_fault_translation Nat "Employee_ID" _).2 (by decide)⟩

/-- A Python `datetime.date`. -/
structure PyDate where
  year : Nat
  month : Nat
  day : Nat
deriving Repr, DecidableEq

/-- Zero-pad a number to the given width, as `strftime` does. -/
def zeroPad (width n : Nat) : String :=
  let s := toString n
  String.mk (List.replicate (width - s.length) '0') ++ s

/-- `date.strftime("%Y%m%d")`. -/
def strftimeYmd (d : PyDate) : String :=
  zeroPad 4 d.year ++ zeroPad 2 d.month ++ zeroPad 2 d.day

/-- `JournalEntryLineData` from `financial_management/types.py`.  The decimal
debit and credit amounts are carried as integer scalars. -/
structure JournalEntryLineData where
  ledger_account : WorkdayReferenceBaseModel
  debit : Option Int := none
  credit : Option Int := none
  cost_center : Option WorkdayReferenceBaseModel := none
  spend_category : Option WorkdayReferenceBaseModel := none
deriving Repr, DecidableEq

/-- `AccountingJournalData` from `financial_management/types.py`. -/
structure AccountingJournalData where
  accounting_date : PyDate
  company : Company
  ledger_type : WorkdayReferenceBaseModel
  journal_source : WorkdayReferenceBaseModel
  journal_entry_line_data : List JournalEntryLineData
deriving Repr, DecidableEq

/-- The `AccountingJournalData.accounting_journal_id` property:
`accounting_date.strftime("%Y%m%d") + "-" + company.workday_id`. -/
def accounting_journal_id (j : AccountingJournalData) : String :=
  strftimeYmd j.accounting_date ++ "-" ++ j.company.workday_id

/-- C8: the derived journal ID depends only on the accounting date and the
company's workday ID: two journals agreeing on those two produce the same
key whatever their other fields hold. -/
theorem C8_journal_id_deterministic (j1 j2 : AccountingJournalData)
    (hdate : j1.accounting_date = j2.accounting_date)
    (hco : j1.company.workday_id = j2.company.workday_id) :
    accounting_journal_id j1 = accounting_journal_id j2 := by
  unfold accounting_journal_id
  rw [hdate, hco]

/-- C8 witness input: a journal for company CO1 dated 2023-05-07. -/
def c8_j1 : AccountingJournalData :=
  { accounting_date := ⟨2023, 5, 7⟩,
    company := { workday_id := "CO1", name := some "Alpha AS" },
    ledger_type := { workday_id := some "Actuals",
                     workday_id_type := "Ledger_Type_ID" },
    journal_source := { workday_id := some "Spreadsheet_Upload",
                        workday_id_type := "Journal_Source_ID" },
    journal_entry_line_data := [] }

/-- C8 witness input: same date and company ID as `c8_j1`, every other field
different. -/
def c8_j2 : AccountingJournalData :=
  { accounting_date := ⟨2023, 5, 7⟩,
    company := { workday_id := "CO1", name := some "Beta AS",
                 country_code := some "NO" },
    ledger_type := { workday_id := some "Historic_Actuals",
                     workday_id_type := "Ledger_Type_ID" },
    journal_source := { workday_id := some "Spreadsheet_Upload",
                        workday_id_type := "Journal_Source_ID" },
    journal_entry_line_data :=
      [{ ledger_account := { workday_id := some "3000",
                             workday_id_type := "Ledger_Account_ID" },
         debit := some 100 }] }

/-- C8 witness: the theorem applied at the two concrete journals. -/
theorem C8_journal_id_deterministic_witness :
    accounting_journal_id c8_j1 = accounting_journal_id c8_j2 :=
  C8_journal_id_deterministic c8_j1 c8_j2 rfl rfl

/-- C9 counterexample input: the base model accepts a parent ID without a
parent type — both are independent optional pydantic fields with `None`
defaults and no validator relates them. -/
def c9_bad : WorkdayReferenceBaseModel :=
  { workday_id := some "4711", workday_id_type := "Ledger_Account_ID",
    workday_parent_id := some "AS1" }

/-- C9 (counterexample): a reference entity with `workday_parent_id` set and
`workday_parent_type` unset is constructible, and `wd_object` accepts it,
emitting a wire ID object carrying a parent ID but no parent type. -/
theorem C9_counterexample :
    c9_bad.workday_parent_id.isSome = true ∧
    c9_bad.workday_parent_type = none ∧
    wd_object c9_bad none (some "Ledger_AccountObject") =
      .ok { className := "Ledger_AccountObject",
            ID := [{ type := "Ledger_Account_ID", value := some "4711",
                     parentId := some "AS1", parentType := none }] } := by
  refine ⟨rfl, rfl, rfl⟩

/-- `LedgerAccount` from `financial_management/types.py`: the only reference
model that declares parent scoping.  `workday_parent_id` is required and
`workday_parent_type` is a `Literal` fixed to `"Account_Set_ID"`; the
id-type literal is `"Ledger_Account_ID"`. -/
structure LedgerAccount where
  workday_id : String
  workday_parent_id : String
deriving Repr, DecidableEq

/-- View a `LedgerAccount` as the base reference model, with the fixed class
literals filled in. -/
def LedgerAccount.toRef (la : LedgerAccount) : WorkdayReferenceBaseModel :=
  { workday_id := some la.workday_id,
    workday_id_type := "Ledger_Account_ID",
    workday_parent_id := some la.workday_parent_id,
    workday_parent_type := some "Account_Set_ID" }

/-- C9 (amended): the base model does not enforce the invariant (see the
counterexample), but `LedgerAccount` — the one model that uses parent
scoping — fixes `workday_parent_type` by a literal default, so whenever its
wire ID object carries a parent ID it also carries the parent type
`Account_Set_ID`. -/
theorem C9_parent_scoping (la : LedgerAccount)
    (h : la.workday_parent_id ≠ "") :
    (wd_id_obj la.toRef).parentId = some la.workday_parent_id ∧
    (wd_id_obj la.toRef).parentType = some "Account_Set_ID" := by
  unfold wd_id_obj LedgerAccount.toRef
  simp [truthyStr, h]

/-- C9 witness: the amended theorem applied at a concrete ledger account. -/
theorem C9_parent_scoping_witness :
    (wd_id_obj (LedgerAccount.toRef ⟨"3000", "AS1"⟩)).parentId = some "AS1" ∧
    (wd_id_obj (LedgerAccount.toRef ⟨"3000", "AS1"⟩)).parentType =
      some "Account_Set_ID" :=
  C9_parent_scoping ⟨"3000", "AS1"⟩ (by decide)

/-- `HumanResources.get_workers` filter computation from
`human_resources/api.py`.  Dates are modelled as epoch-day ordinals so that
`date.today() + timedelta(days=15)` is `today + 15`; a `datetime.date`
instance is always truthy in Python, so `if as_of_date:` only tests
presence.  Returns the value of the `As_Of_Effective_Date` filter, `none`
when the filter dict stays empty. -/
def get_workers_filters (today : Nat) (as_of_date : Option Nat) : Option Nat :=
  match as_of_date with
  | some _ => some (today + 15)
  | none => none

/-- C10: with any non-None `as_of_date`, the effective-date filter is
today plus 15 days, independent of the supplied value; with `None`, no
filter is set. -/
theorem C10_as_of_date_ignored (today d d2 : Nat) :
    get_workers_filters today (some d) = some (today + 15) ∧
    get_workers_filters today (some d) = get_workers_filters today (some d2) ∧
    get_workers_filters today none = none :=
  ⟨rfl, rfl, rfl⟩

end OdaWd
